import Mathlib

/-!
Shallow embedding of `src/ebmud_api.py`: a small Flask service that fetches a
household's daily water usage from the EBMUD WaterSmart portal via a headless
browser, extracts the latest usage value from the downloaded CSV, and caches
the result in a JSON file with a 23-hour TTL.

The browser-automation steps (playwright) are abstracted as an `Except`-valued
parameter carrying either an error or the parsed CSV rows; everything after the
download (row selection, column lookup, float conversion, reading construction,
caching, HTTP responses) is embedded directly from the source. Python floats
are modelled as exact rationals, with `float(...)` on strings modelled by a
parser `pyFloat` for finite decimal literals (optionally signed, with optional
fraction and exponent); JSON values are modelled flat (the program only ever
serializes flat string-keyed objects of scalars).
-/

namespace Ebmud

/-- Scalar JSON values appearing in this program's payloads. -/
inductive JVal where
  | num : ℚ → JVal
  | str : String → JVal
  | bool : Bool → JVal
deriving Repr, DecidableEq

/-- A flat JSON object (Python dict with string keys), as written by
`json.dump` and read by `json.load` in the source. -/
abbrev JObj := List (String × JVal)

/-- The result dict built at the end of `fetch_csv_via_browser` (lines 80-85 of
the source): source tag, latest usage in gallons, row count, capture time. -/
structure UsageReading where
  source : String
  latest_usage_gallons : ℚ
  rows : ℕ
  timestamp : ℕ
deriving Repr, DecidableEq

/-- Serialization of a reading as the JSON object `json.dump` writes. -/
def encodeReading (r : UsageReading) : JObj :=
  [("source", JVal.str r.source),
   ("latest_usage_gallons", JVal.num r.latest_usage_gallons),
   ("rows", JVal.num (r.rows : ℚ)),
   ("timestamp", JVal.num (r.timestamp : ℚ))]

/-- Deserialization back into a reading, to state that the cache format
round-trips the full `UsageReading` losslessly. -/
def decodeReading (j : JObj) : Option UsageReading :=
  match List.lookup "source" j, List.lookup "latest_usage_gallons" j,
        List.lookup "rows" j, List.lookup "timestamp" j with
  | some (JVal.str s), some (JVal.num q), some (JVal.num rw), some (JVal.num ts) =>
      if rw.den = 1 ∧ 0 ≤ rw.num ∧ ts.den = 1 ∧ 0 ≤ ts.num then
        some ⟨s, q, rw.num.toNat, ts.num.toNat⟩
      else none
  | _, _, _, _ => none

/-- CACHE_TTL = 23 * 3600 (line 19 of the source). -/
def CACHE_TTL : ℕ := 23 * 3600

/-- State of the on-disk cache artifact `/tmp/ebmud_cache.json`: `none` when
the file does not exist, otherwise its mtime (seconds) together with its
contents; contents `none` stands for a file whose bytes are not a valid JSON
object (`json.load` raises on it). -/
abbrev CacheState := Option (ℕ × Option JObj)

/-- The function `cached()` (source lines 23-29) run at time `now`: absent
file gives None; a file older than CACHE_TTL gives None; otherwise the file is
opened and `json.load` either returns its contents or raises
(`Except.error`). -/
def cached : CacheState → ℕ → Except String (Option JObj)
  | none, _ => Except.ok none
  | some (mtime, some j), now =>
      if now - mtime > CACHE_TTL then Except.ok none else Except.ok (some j)
  | some (mtime, none), now =>
      if now - mtime > CACHE_TTL then Except.ok none
      else Except.error "json.decoder.JSONDecodeError"

/-- The function `save_cache(data)` (source lines 31-33) run at time `now`:
truncates and rewrites the cache file, so the new state is the serialized data
with mtime `now`, whatever the prior state was. -/
def save_cache (now : ℕ) (data : JObj) : CacheState :=
  some (now, some data)

/-- One CSV row as produced by `csv.DictReader`: an association of header
names to field values, in header order. -/
abbrev Record := List (String × String)

/-- Python `latest.get(k)`: the value under key `k`, or None when absent. -/
def recGet (r : Record) (k : String) : Option String :=
  List.lookup k r

/-- Python truthiness of a `dict.get` result: None is falsy, a string is
truthy exactly when non-empty. -/
def pyTruthyStr : Option String → Bool
  | none => false
  | some s => !s.isEmpty

/-- Python `a or b` on `dict.get` results: yields `a` when `a` is truthy,
otherwise `b` (whatever it is, None or an empty string included). -/
def pyOr (a b : Option String) : Option String :=
  if pyTruthyStr a then a else b

/-- The `or`-chain of source lines 71-75, left-associated as Python reads it:
`latest.get("Usage") or latest.get("Usage (Gallons)") or latest.get("Gallons")`. -/
def usageChoice (latest : Record) : Option String :=
  pyOr (pyOr (recGet latest "Usage") (recGet latest "Usage (Gallons)"))
    (recGet latest "Gallons")

/-- Rendering of `latest.keys()` inside the f-string of source line 78, as
Python prints a `dict_keys` view. -/
def keysRepr (latest : Record) : String :=
  "dict_keys([" ++
    String.intercalate ", " (latest.map (fun kv => "'" ++ kv.1 ++ "'")) ++ "])"

/-- Value of a list of decimal digit characters. -/
def digitsVal (cs : List Char) : ℕ :=
  cs.foldl (fun n c => 10 * n + (c.toNat - 48)) 0

/-- Mantissa of a Python float literal: digits, optionally split by one dot,
with at least one digit overall. -/
def parseMantissa (cs : List Char) : Option ℚ :=
  match cs.span (fun c => c != '.') with
  | (intp, []) =>
      if !intp.isEmpty && intp.all Char.isDigit then
        some ((digitsVal intp : ℚ))
      else none
  | (intp, _ :: fracp) =>
      if (!intp.isEmpty || !fracp.isEmpty) && intp.all Char.isDigit
          && fracp.all Char.isDigit then
        some ((digitsVal intp : ℚ) + (digitsVal fracp : ℚ) / ((10 : ℚ) ^ fracp.length))
      else none

/-- Exponent part of a Python float literal (after the e/E): an optionally
signed non-empty digit string. -/
def parseExp (cs : List Char) : Option ℤ :=
  match cs with
  | '+' :: t => if !t.isEmpty && t.all Char.isDigit then some ((digitsVal t : ℤ)) else none
  | '-' :: t => if !t.isEmpty && t.all Char.isDigit then some (-(digitsVal t : ℤ)) else none
  | t => if !t.isEmpty && t.all Char.isDigit then some ((digitsVal t : ℤ)) else none

/-- Python `float(s)` on a string, modelled over exact rationals: surrounding
whitespace stripped, an optional sign, then a finite decimal literal with
optional fraction and exponent. Non-numeric strings give `none` (a raised
ValueError); the non-finite spellings inf/nan, which have no rational value,
are outside the model. -/
def pyFloat (s : String) : Option ℚ :=
  let cs := s.trim.toList
  let sgn : Bool × List Char :=
    match cs with
    | '+' :: t => (false, t)
    | '-' :: t => (true, t)
    | t => (false, t)
  let mq : Option ℚ :=
    match sgn.2.span (fun c => c != 'e' && c != 'E') with
    | (mant, []) => parseMantissa mant
    | (mant, _ :: ex) =>
        match parseMantissa mant, parseExp ex with
        | some m, some e => some (m * (10 : ℚ) ^ e)
        | _, _ => none
  match mq with
  | some q => some (if sgn.1 then -q else q)
  | none => none

/-- Lines 61-85 of `fetch_csv_via_browser`, the pure tail that runs once the
download finished: `rows` is the list the `csv.DictReader` produced and `now`
the value of `int(time.time())`. An empty row list raises; the last row's
usage is chosen by the `or`-chain; a None choice raises the schema error; the
chosen string goes through `float` and the result dict is built. -/
def fetch_csv_via_browser (rows : List Record) (now : ℕ) : Except String UsageReading :=
  match rows.getLast? with
  | none => Except.error "CSV contained no rows"
  | some latest =>
      match usageChoice latest with
      | none => Except.error ("Unknown CSV schema: " ++ keysRepr latest)
      | some s =>
          match pyFloat s with
          | none => Except.error ("could not convert string to float: '" ++ s ++ "'")
          | some q =>
              Except.ok ⟨"ebmud_watersmart_playwright", q, rows.length, now⟩

/-- Digit run of a Python integer literal: digits with single underscores
allowed between digits only (as `int(str)` accepts). -/
def usDigits : List Char → Bool
  | [] => false
  | [c] => c.isDigit
  | c :: '_' :: rest => c.isDigit && usDigits rest
  | c :: d :: rest => c.isDigit && usDigits (d :: rest)

/-- Python `int(s)` on a string: surrounding whitespace stripped, an optional
sign, then a non-empty digit run (underscores between digits allowed); any
other string gives `none` (a raised ValueError). -/
def pyInt (s : String) : Option ℤ :=
  let cs := s.trim.toList
  match cs with
  | '+' :: t =>
      if usDigits t then some ((digitsVal (t.filter (fun c => c != '_')) : ℤ)) else none
  | '-' :: t =>
      if usDigits t then some (-(digitsVal (t.filter (fun c => c != '_')) : ℤ)) else none
  | t =>
      if usDigits t then some ((digitsVal (t.filter (fun c => c != '_')) : ℤ)) else none

/-- The process environment, as `os.getenv` sees it. -/
abbrev Env := List (String × String)

/-- Python `os.getenv(k)`: the variable's value or None. -/
def getenv (env : Env) (k : String) : Option String :=
  List.lookup k env

/-- Module-level configuration read once at startup (source lines 12-14):
EMAIL and PASSWORD may be None; PORT is an integer. -/
structure Config where
  email : Option String
  password : Option String
  port : ℤ
deriving Repr, DecidableEq

/-- Module import time, source lines 12-14: `EMAIL = os.getenv("EBMUD_EMAIL")`
and `PASSWORD = os.getenv("EBMUD_PASSWORD")` never raise (missing variables
just give None), while `PORT = int(os.getenv("PORT", 8081))` raises ValueError
at startup when PORT is set to a non-integer string; with PORT unset, `int`
is applied to the default 8081. -/
def startup (env : Env) : Except String Config :=
  let email := getenv env "EBMUD_EMAIL"
  let password := getenv env "EBMUD_PASSWORD"
  match getenv env "PORT" with
  | none => Except.ok ⟨email, password, 8081⟩
  | some s =>
      match pyInt s with
      | some n => Except.ok ⟨email, password, n⟩
      | none => Except.error ("invalid literal for int() with base 10: '" ++ s ++ "'")

/-- An HTTP response: status code and JSON body. -/
structure Response where
  status : ℕ
  body : JObj
deriving Repr, DecidableEq

/-- The `/health` endpoint (source lines 87-89): a constant, touching neither
configuration, cache nor upstream. Flask turns the bare dict into a 200. -/
def health : Response :=
  ⟨200, [("status", JVal.str "ok")]⟩

/-- Python dict union `a | b`: keys of `a` in order with values overridden by
`b` where present, then the keys only `b` has, in order. -/
def dictMerge (a b : JObj) : JObj :=
  a.map (fun kv =>
    match List.lookup kv.1 b with
    | some w => (kv.1, w)
    | none => kv) ++
  b.filter (fun kv => (List.lookup kv.1 a).isNone)

/-- The whole `fetch_csv_via_browser` call including the login steps, with the
browser interaction abstracted: `browser` carries the rows of the downloaded
CSV, or the error of a failed navigation/login/download step. When a
credential is None (unset environment variable), `page.fill` raises, so the
call fails before any rows are seen; in the source an earlier navigation
failure could raise first, which this model folds into the same failure
outcome. -/
def fetch_csv_with_login (cfg : Config) (browser : Except String (List Record))
    (now : ℕ) : Except String UsageReading :=
  match cfg.email with
  | none => Except.error "Page.fill: value: expected string, got undefined"
  | some _ =>
      match cfg.password with
      | none => Except.error "Page.fill: value: expected string, got undefined"
      | some _ =>
          match browser with
          | Except.error e => Except.error e
          | Except.ok rows => fetch_csv_via_browser rows now

/-- Outcome of one `/water/daily` request: the HTTP response, the cache state
after the request, and whether a fetch (a retrieval attempt) was performed. -/
structure DWResult where
  response : Response
  cache : CacheState
  fetched : Bool
deriving Repr, DecidableEq

/-- The `/water/daily` handler (source lines 91-105) at time `now` against
cache state `st`, with `fetchResult` the outcome `fetch_csv_via_browser`
would produce. `data = cached()` runs outside the try-block, so an exception
it raises escapes the handler (outer `Except.error`); a truthy cached dict is
returned with `cached: true`; otherwise the fetch outcome is either persisted
and returned with `cached: false`, or turned into a 500 error body, the cache
left untouched. -/
def daily_water (st : CacheState) (now : ℕ)
    (fetchResult : Except String UsageReading) : Except String DWResult :=
  match cached st now with
  | Except.error e => Except.error e
  | Except.ok dataOpt =>
      let hit : Option JObj :=
        match dataOpt with
        | some j => if j.isEmpty then none else some j
        | none => none
      match hit with
      | some j =>
          Except.ok ⟨⟨200, dictMerge j [("cached", JVal.bool true)]⟩, st, false⟩
      | none =>
          match fetchResult with
          | Except.ok r =>
              let data := encodeReading r
              Except.ok ⟨⟨200, dictMerge data [("cached", JVal.bool false)]⟩,
                save_cache now data, true⟩
          | Except.error e =>
              Except.ok ⟨⟨500, [("error", JVal.str e), ("cached", JVal.bool false)]⟩,
                st, true⟩

/-- C2: a cache read within TTL (23*3600) seconds of a write returns exactly
the written reading's serialization unchanged, and the serialization
round-trips the full UsageReading losslessly. -/
theorem C2_roundtrip (r : UsageReading) (w now : ℕ) (h : now - w ≤ CACHE_TTL) :
    cached (save_cache w (encodeReading r)) now = Except.ok (some (encodeReading r)) ∧
    decodeReading (encodeReading r) = some r := by
  constructor
  · have hn : ¬ now - w > CACHE_TTL := by omega
    simp [cached, save_cache, hn]
  · simp [decodeReading, encodeReading, List.lookup]

/-- C2 witness: the round trip at a concrete reading, read at the write time. -/
theorem C2_roundtrip_witness :
    cached (save_cache 0 (encodeReading ⟨"ebmud_watersmart_playwright", 5, 1, 7⟩)) 0 =
      Except.ok (some (encodeReading ⟨"ebmud_watersmart_playwright", 5, 1, 7⟩)) ∧
    decodeReading (encodeReading ⟨"ebmud_watersmart_playwright", 5, 1, 7⟩) =
      some ⟨"ebmud_watersmart_playwright", 5, 1, 7⟩ :=
  C2_roundtrip ⟨"ebmud_watersmart_playwright", 5, 1, 7⟩ 0 0 (by decide)

/-- C3: a cache read more than TTL seconds after the last write returns
absent, and a record whose age is at most TTL is returned. -/
theorem C3_ttl (w now : ℕ) (c : Option JObj) :
    (now - w > CACHE_TTL → cached (some (w, c)) now = Except.ok none) ∧
    (∀ j, c = some j → now - w ≤ CACHE_TTL →
      cached (some (w, c)) now = Except.ok (some j)) := by
  constructor
  · intro h
    match c with
    | some j => simp [cached, h]
    | none => simp [cached, h]
  · intro j hj h
    subst hj
    have hn : ¬ now - w > CACHE_TTL := by omega
    simp [cached, hn]

/-- C4 counterexample: the cache read DOES throw for an unreadable record
that is within TTL; `json.load` runs outside any handler, so the raised
decode error escapes `cached()`, contradicting the claim that a read never
throws. -/
theorem C4_counterexample :
    cached (some (0, none)) 0 = Except.error "json.decoder.JSONDecodeError" := rfl

/-- C4 amended: the cache read does not throw as long as the record is not
both unreadable and within TTL: a missing record, a readable record, and an
expired unreadable record (the age check short-circuits before the file is
opened) are all handled, the first and last as absent; only a fresh
unreadable record makes `json.load` raise. -/
theorem C4_no_throw (st : CacheState) (now : ℕ)
    (h : ∀ w, st = some (w, none) → now - w > CACHE_TTL) :
    ∃ v, cached st now = Except.ok v := by
  match st with
  | none => exact ⟨none, rfl⟩
  | some (w, some j) =>
      by_cases hc : now - w > CACHE_TTL
      · exact ⟨none, by simp [cached, hc]⟩
      · exact ⟨some j, by simp [cached, hc]⟩
  | some (w, none) =>
      exact ⟨none, by simp [cached, h w rfl]⟩

/-- C4 witness: a read of a missing record returns without throwing. -/
theorem C4_no_throw_witness : ∃ v, cached none 0 = Except.ok v :=
  C4_no_throw none 0 (by intro w hw; simp at hw)

/-- C1 counterexample: the claim says extraction uses the value of the first
recognized column name PRESENT in the last record, and raises the schema
error only when NONE of the names is present. But the lookup chain uses
Python `or`, which skips a present-but-falsy value: in a record where
"Usage" is present with the empty string as its value, the claim predicts the
lookup settles on "Usage" (no schema error), while the code raises the schema
error even though "Usage" is present. -/
theorem C1_counterexample :
    recGet [("Usage", "")] "Usage" = some "" ∧
    fetch_csv_via_browser [[("Usage", "")]] 0 =
      Except.error "Unknown CSV schema: dict_keys(['Usage'])" := by
  constructor
  · rfl
  · rfl

/-- C1 amended: extraction takes the last record of the sequence and tries the
column names "Usage", "Usage (Gallons)", "Gallons" in that fixed priority
order, using the first name whose value is present AND non-empty (Python
truthiness); when "Usage" and "Usage (Gallons)" are absent or empty the chain
yields whatever "Gallons" holds, and only when that too is absent does it fail
with the schema error naming the actual column names present (a present but
empty value instead reaches the float conversion, or, if it ends the chain as
None-valued lookup would, the schema error). -/
theorem C1_extraction (rows : List Record) (now : ℕ) (latest : Record)
    (hlast : rows.getLast? = some latest) :
    (∀ v, recGet latest "Usage" = some v → v ≠ "" → usageChoice latest = some v) ∧
    (∀ v, pyTruthyStr (recGet latest "Usage") = false →
      recGet latest "Usage (Gallons)" = some v → v ≠ "" →
      usageChoice latest = some v) ∧
    (pyTruthyStr (recGet latest "Usage") = false →
      pyTruthyStr (recGet latest "Usage (Gallons)") = false →
      usageChoice latest = recGet latest "Gallons") ∧
    (usageChoice latest = none →
      fetch_csv_via_browser rows now =
        Except.error ("Unknown CSV schema: " ++ keysRepr latest)) := by
  refine ⟨?_, ?_, ?_, ?_⟩
  · intro v hv hne
    have hbe : v.isEmpty = false :=
      Bool.eq_false_iff.mpr (fun hx => hne ((String.isEmpty_iff v).mp hx))
    have ht : pyTruthyStr (some v) = true := by
      simp [pyTruthyStr, hbe]
    simp [usageChoice, pyOr, hv, ht]
  · intro v hfalse hv hne
    have hbe : v.isEmpty = false :=
      Bool.eq_false_iff.mpr (fun hx => hne ((String.isEmpty_iff v).mp hx))
    have ht : pyTruthyStr (some v) = true := by
      simp [pyTruthyStr, hbe]
    simp [usageChoice, pyOr, hfalse, hv, ht]
  · intro h1 h2
    simp [usageChoice, pyOr, h1, h2]
  · intro hnone
    simp [fetch_csv_via_browser, hlast, hnone]

/-- C1 witness: on a last record carrying a non-empty "Usage" value, the
chain settles on that value. -/
theorem C1_extraction_witness :
    usageChoice [("Date", "2024-01-01"), ("Usage", "7.5")] = some "7.5" :=
  (C1_extraction [[("Date", "2024-01-01"), ("Usage", "7.5")]] 0
    [("Date", "2024-01-01"), ("Usage", "7.5")] rfl).1 "7.5" rfl (by decide)

/-- C5: on a cache miss (the read yields None or a falsy dict), a failed
fetch makes the endpoint answer 500 with the failure message under "error"
and cached:false, and the cache state is exactly the prior one: nothing is
created or overwritten. -/
theorem C5_error_response (st : CacheState) (now : ℕ) (msg : String)
    (hmiss : cached st now = Except.ok none ∨
      ∃ j, cached st now = Except.ok (some j) ∧ j.isEmpty = true) :
    daily_water st now (Except.error msg) =
      Except.ok ⟨⟨500, [("error", JVal.str msg), ("cached", JVal.bool false)]⟩,
        st, true⟩ := by
  rcases hmiss with h | ⟨j, h, hj⟩
  · simp [daily_water, h]
  · simp [daily_water, h, hj]

/-- C5 witness: empty cache, a fetch failing with an authentication timeout. -/
theorem C5_error_response_witness :
    daily_water none 0 (Except.error "Page.wait_for_url: Timeout 60000ms exceeded.") =
      Except.ok ⟨⟨500, [("error", JVal.str "Page.wait_for_url: Timeout 60000ms exceeded."),
        ("cached", JVal.bool false)]⟩, none, true⟩ :=
  C5_error_response none 0 "Page.wait_for_url: Timeout 60000ms exceeded." (Or.inl rfl)

/-- Usage field carried by the body of a successful handler outcome. -/
def usageField (out : Except String DWResult) : Option JVal :=
  match out with
  | Except.ok res => List.lookup "latest_usage_gallons" res.response.body
  | Except.error _ => none

/-- C6: a request finding a valid (non-expired) cached reading answers 200
with the cached reading annotated cached:true, performs no retrieval (the
result does not depend on the fetch outcome and `fetched` is false) and
leaves the cache artifact unwritten; moreover a successful first call at time
`w` (cache miss) persists the reading, and the second call within TTL carries
the identical usage value. -/
theorem C6_cache_hit (r : UsageReading) (w now : ℕ) (hfresh : now - w ≤ CACHE_TTL) :
    (∀ fr, daily_water (some (w, some (encodeReading r))) now fr =
        Except.ok ⟨⟨200, dictMerge (encodeReading r) [("cached", JVal.bool true)]⟩,
          some (w, some (encodeReading r)), false⟩) ∧
    daily_water none w (Except.ok r) =
      Except.ok ⟨⟨200, dictMerge (encodeReading r) [("cached", JVal.bool false)]⟩,
        some (w, some (encodeReading r)), true⟩ ∧
    (∀ fr, usageField (daily_water (some (w, some (encodeReading r))) now fr) =
      usageField (daily_water none w (Except.ok r))) := by
  have hn : ¬ now - w > CACHE_TTL := by omega
  have hc : cached (some (w, some (encodeReading r))) now =
      Except.ok (some (encodeReading r)) := by
    simp [cached, hn]
  have hne : ¬ (encodeReading r = ([] : JObj)) := by simp [encodeReading]
  refine ⟨fun fr => ?_, ?_, fun fr => ?_⟩
  · simp [daily_water, hc, hne]
  · rfl
  · simp [usageField, daily_water, cached, hn, hne, dictMerge, encodeReading,
      List.lookup, save_cache]

/-- C6 witness: a hit at a concrete reading ignores even a failing fetch
outcome and returns the cached body. -/
theorem C6_cache_hit_witness :
    daily_water (some (0, some (encodeReading ⟨"ebmud_watersmart_playwright", 5, 1, 0⟩)))
        0 (Except.error "boom") =
      Except.ok ⟨⟨200, dictMerge (encodeReading ⟨"ebmud_watersmart_playwright", 5, 1, 0⟩)
          [("cached", JVal.bool true)]⟩,
        some (0, some (encodeReading ⟨"ebmud_watersmart_playwright", 5, 1, 0⟩)), false⟩ :=
  (C6_cache_hit ⟨"ebmud_watersmart_playwright", 5, 1, 0⟩ 0 0 (by decide)).1
    (Except.error "boom")

/-- C7: any constructed reading carries a usage value obtained by a
successful float conversion of the chosen usage string (so it is present and
numeric); a chosen value that is non-numeric, and a record where the chain
yields None, both make the pipeline fail before a reading exists — they are
errors, never a reading with usage coerced to zero. -/
theorem C7_numeric_usage (rows : List Record) (now : ℕ) :
    (∀ r, fetch_csv_via_browser rows now = Except.ok r →
      ∃ latest s, rows.getLast? = some latest ∧ usageChoice latest = some s ∧
        pyFloat s = some r.latest_usage_gallons) ∧
    (∀ latest s, rows.getLast? = some latest → usageChoice latest = some s →
      pyFloat s = none →
      fetch_csv_via_browser rows now =
        Except.error ("could not convert string to float: '" ++ s ++ "'")) ∧
    (∀ latest, rows.getLast? = some latest → usageChoice latest = none →
      fetch_csv_via_browser rows now =
        Except.error ("Unknown CSV schema: " ++ keysRepr latest)) := by
  refine ⟨?_, ?_, ?_⟩
  · intro r hr
    cases hl : rows.getLast? with
    | none =>
        simp only [fetch_csv_via_browser, hl] at hr
        cases hr
    | some latest =>
        cases hu : usageChoice latest with
        | none =>
            simp only [fetch_csv_via_browser, hl, hu] at hr
            cases hr
        | some s =>
            cases hf : pyFloat s with
            | none =>
                simp only [fetch_csv_via_browser, hl, hu, hf] at hr
                cases hr
            | some q =>
                simp only [fetch_csv_via_browser, hl, hu, hf] at hr
                cases hr
                exact ⟨latest, s, rfl, hu, hf⟩
  · intro latest s hl hu hf
    simp [fetch_csv_via_browser, hl, hu, hf]
  · intro latest hl hu
    simp [fetch_csv_via_browser, hl, hu]

/-- C9: a reading produced by a successful fetch names the fixed source tag,
counts the rows seen, and that count is at least 1; an empty row sequence
fails with the no-rows error before any reading is constructed. -/
theorem C9_reading_shape (rows : List Record) (now : ℕ) :
    (∀ r, fetch_csv_via_browser rows now = Except.ok r →
      r.source = "ebmud_watersmart_playwright" ∧ r.rows = rows.length ∧ 1 ≤ r.rows) ∧
    (rows = [] → fetch_csv_via_browser rows now = Except.error "CSV contained no rows") := by
  constructor
  · intro r hr
    cases hl : rows.getLast? with
    | none =>
        simp only [fetch_csv_via_browser, hl] at hr
        cases hr
    | some latest =>
        have hpos : 0 < rows.length := by
          cases rows with
          | nil => simp at hl
          | cons a t => simp
        cases hu : usageChoice latest with
        | none =>
            simp only [fetch_csv_via_browser, hl, hu] at hr
            cases hr
        | some s =>
            cases hf : pyFloat s with
            | none =>
                simp only [fetch_csv_via_browser, hl, hu, hf] at hr
                cases hr
            | some q =>
                simp only [fetch_csv_via_browser, hl, hu, hf] at hr
                cases hr
                exact ⟨rfl, rfl, hpos⟩
  · intro h
    subst h
    rfl

/-- C10: a PORT value that is not a valid integer literal makes module import
(startup) raise ValueError, while an unset PORT defaults to 8081; credential
variables never make startup fail (their values land in the config verbatim,
possibly None). -/
theorem C10_port (env : Env) :
    (∀ s, getenv env "PORT" = some s → pyInt s = none →
      startup env =
        Except.error ("invalid literal for int() with base 10: '" ++ s ++ "'")) ∧
    (getenv env "PORT" = none →
      startup env = Except.ok ⟨getenv env "EBMUD_EMAIL", getenv env "EBMUD_PASSWORD", 8081⟩) := by
  constructor
  · intro s hs hp
    simp [startup, hs, hp]
  · intro h
    simp [startup, h]

/-- C8: with EBMUD_EMAIL or EBMUD_PASSWORD unset (and PORT unset or valid),
startup still succeeds — so the process serves the constant health endpoint —
and the missing credential surfaces only at fetch time, when `page.fill`
raises and the usage endpoint turns it into a 500 error body with
cached:false, leaving the cache untouched. -/
theorem C8_missing_credentials (env : Env)
    (hcred : getenv env "EBMUD_EMAIL" = none ∨ getenv env "EBMUD_PASSWORD" = none)
    (hport : getenv env "PORT" = none ∨
      ∃ s n, getenv env "PORT" = some s ∧ pyInt s = some n) :
    health = ⟨200, [("status", JVal.str "ok")]⟩ ∧
    ∃ cfg, startup env = Except.ok cfg ∧
      ∀ browser now st, cached st now = Except.ok none →
        daily_water st now (fetch_csv_with_login cfg browser now) =
          Except.ok ⟨⟨500,
            [("error", JVal.str "Page.fill: value: expected string, got undefined"),
             ("cached", JVal.bool false)]⟩, st, true⟩ := by
  refine ⟨rfl, ?_⟩
  have hok : ∃ port, startup env =
      Except.ok ⟨getenv env "EBMUD_EMAIL", getenv env "EBMUD_PASSWORD", port⟩ := by
    rcases hport with h | ⟨s, n, hs, hn⟩
    · exact ⟨8081, by simp [startup, h]⟩
    · exact ⟨n, by simp [startup, hs, hn]⟩
  obtain ⟨port, hok⟩ := hok
  refine ⟨⟨getenv env "EBMUD_EMAIL", getenv env "EBMUD_PASSWORD", port⟩, hok, ?_⟩
  intro browser now st hmiss
  have hfetch : fetch_csv_with_login
      ⟨getenv env "EBMUD_EMAIL", getenv env "EBMUD_PASSWORD", port⟩ browser now =
      Except.error "Page.fill: value: expected string, got undefined" := by
    rcases hcred with h | h
    · simp [fetch_csv_with_login, h]
    · cases he : getenv env "EBMUD_EMAIL" with
      | none => simp [fetch_csv_with_login, he]
      | some e => simp [fetch_csv_with_login, he, h]
  rw [hfetch]
  simp [daily_water, hmiss]

/-- C8 witness: the empty environment — no credentials, no PORT — starts up,
serves health, and a usage request fails with the 500 fill error. -/
theorem C8_missing_credentials_witness :
    health = ⟨200, [("status", JVal.str "ok")]⟩ ∧
    ∃ cfg, startup ([] : Env) = Except.ok cfg ∧
      ∀ browser now st, cached st now = Except.ok none →
        daily_water st now (fetch_csv_with_login cfg browser now) =
          Except.ok ⟨⟨500,
            [("error", JVal.str "Page.fill: value: expected string, got undefined"),
             ("cached", JVal.bool false)]⟩, st, true⟩ :=
  C8_missing_credentials [] (Or.inl rfl) (Or.inl rfl)

end Ebmud
